import Mathlib

/-!
Verification of the `timecapsule` core (src/crypto.rs, src/storage.rs).

The cryptographic envelope (`TimeLockedMessage`) and its `new`/`unlock`
operations are embedded shallowly.  The external crates (`argon2`,
`aes_gcm`, `serde_json`, `base64`) are modelled as ideal primitives:

* Argon2 password hashing is an ideal (collision-free) keyed digest: a
  `PasswordHashRecord` plays the role of the PHC-format string produced by
  `argon2.hash_password`, carrying the salt and a digest that determines the
  `(password, salt)` pair.  `verify_password` succeeds exactly on the
  original password.
* Argon2 key derivation (`hash_password_into`) is an ideal KDF: the derived
  32-byte key is modelled as the `IdealKey` pair that determines it.
* AES-256-GCM is an ideal AEAD: a ciphertext carries an opaque body and a
  GCM tag binding key, nonce and body; decryption succeeds and returns the
  body exactly when the tag matches.
* base64 encoding/decoding and UTF-8 decoding, which are mutually inverse
  bijections on the values the program produces, are elided (the structured
  fields stand for their encoded text forms).
* `serde_json` serialization is modelled by `FileData`: a file either holds
  the JSON document of an envelope or unparsable content.

Randomness (`OsRng` salt and nonce, `Uuid::new_v4`) and the wall clock
(`Utc::now()`) are threaded as explicit parameters.
-/

namespace Timecapsule

/-- Errors raised by `src/crypto.rs`.  Each constructor corresponds to one
`anyhow!` message string of the source; note that in the source every such
error is a plain formatted string, in particular the still-locked error is
the constant string "Message is still time-locked" and carries no payload. -/
inductive CryptoError where
  | keyDerivationError
  | passwordMismatch
  | stillLocked
  | authenticationFailed
  | invalidContent
deriving DecidableEq, Repr

/-- Model of the 32-byte key produced by Argon2 `hash_password_into` in
`derive_key` (src/crypto.rs lines 109-120): an ideal KDF output, determined
by and determining the (password, salt) input pair. -/
structure IdealKey where
  password : String
  salt : String
deriving DecidableEq, Repr

/-- Model of the ideal Argon2 digest of a password under a salt. -/
def argon2_digest (password salt : String) : String × String :=
  (password, salt)

/-- Model of the PHC-format password-hash string produced by
`argon2.hash_password` (src/crypto.rs lines 33-37): a self-contained record
embedding the salt and the digest. -/
structure PasswordHashRecord where
  salt : String
  digest : String × String
deriving DecidableEq, Repr

/-- Model of `argon2.hash_password(password, salt)`. -/
def argon2_hash_password (password salt : String) : PasswordHashRecord :=
  { salt := salt, digest := argon2_digest password salt }

/-- Model of `Argon2::default().verify_password` against a parsed PHC
record: recomputes the digest under the record's embedded salt and compares. -/
def argon2_verify_password (password : String) (record : PasswordHashRecord) : Bool :=
  decide (record.digest = argon2_digest password record.salt)

/-- Characters accepted by the PHC B64 salt encoding
(`SaltString::from_b64`). -/
def isSaltChar (c : Char) : Bool :=
  c.isAlphanum || c = '+' || c = '/'

/-- Model of the syntactic check performed by `SaltString::from_b64`
in `derive_key`: the salt text must be nonempty B64. -/
def validSalt (s : String) : Bool :=
  !s.data.isEmpty && s.data.all isSaltChar

/-- Embedding of `derive_key` (src/crypto.rs lines 109-120): parse the salt
with `SaltString::from_b64` (failure becomes the key-derivation error), then
derive the 32-byte key with Argon2 `hash_password_into` (ideal KDF). -/
def derive_key (password salt : String) : Except CryptoError IdealKey :=
  if validSalt salt then
    .ok { password := password, salt := salt }
  else
    .error .keyDerivationError

/-- Model of an AES-256-GCM ciphertext (ciphertext bytes plus the 128-bit
authentication tag), as produced by `cipher.encrypt` and stored base64-encoded
in `encrypted_content`.  The ideal tag binds key, nonce and body. -/
structure AeadCiphertext where
  body : String
  tag : IdealKey × List Nat × String
deriving DecidableEq, Repr

/-- Model of `cipher.encrypt(nonce, content)` for AES-256-GCM. -/
def aes_gcm_encrypt (key : IdealKey) (nonce : List Nat) (plaintext : String) : AeadCiphertext :=
  { body := plaintext, tag := (key, nonce, plaintext) }

/-- Model of `cipher.decrypt(nonce, bytes)` for AES-256-GCM: returns the
plaintext exactly when the authentication tag verifies, otherwise fails. -/
def aes_gcm_decrypt (key : IdealKey) (nonce : List Nat) (ct : AeadCiphertext) : Option String :=
  if ct.tag = (key, nonce, ct.body) then some ct.body else none

/-- Embedding of the `TimeLockedMessage` struct (src/crypto.rs lines 11-20).
Timestamps (`DateTime<Utc>`) are integers; the base64/PHC text encodings of
the first four fields are elided in favour of the structured values. -/
structure TimeLockedMessage where
  encrypted_content : AeadCiphertext
  nonce : List Nat
  salt : String
  password_hash : PasswordHashRecord
  unlock_date : Int
  label : Option String
  created_at : Int
deriving DecidableEq, Repr

/-- Embedding of `TimeLockedMessage::new` (src/crypto.rs lines 23-66).
The freshly generated randomness (`SaltString::generate`, the 12 nonce
bytes from `OsRng`) and the creation instant `Utc::now()` are explicit
parameters.  Steps, in source order: hash the password with Argon2 under
the salt, derive the encryption key from the password and the same salt,
encrypt the content under key and nonce, and assemble the envelope
(base64 encoding of ciphertext and nonce elided). -/
def TimeLockedMessage.new (content password : String) (unlock_date : Int)
    (label : Option String) (salt : String) (nonce_bytes : List Nat)
    (now : Int) : Except CryptoError TimeLockedMessage :=
  let password_hash := argon2_hash_password password salt
  match derive_key password salt with
  | .error e => .error e
  | .ok key =>
      let encrypted := aes_gcm_encrypt key nonce_bytes content
      .ok { encrypted_content := encrypted
            nonce := nonce_bytes
            salt := salt
            password_hash := password_hash
            unlock_date := unlock_date
            label := label
            created_at := now }

/-- Embedding of `TimeLockedMessage::unlock` (src/crypto.rs lines 68-107),
with the current instant `Utc::now()` as the explicit parameter `now`.
Steps, in source order: parse and verify the password hash (parsing of the
structured record always succeeds; a failed verification is the constant
"Invalid password" error), check the time gate (`unlock_date > now` is the
constant "Message is still time-locked" error, with no payload), re-derive
the key, base64-decode ciphertext and nonce (elided), decrypt (an AEAD tag
failure is the "Decryption failed" error), and decode UTF-8 (always valid
for the strings of the model). -/
def TimeLockedMessage.unlock (self : TimeLockedMessage) (password : String)
    (now : Int) : Except CryptoError String :=
  if argon2_verify_password password self.password_hash = false then
    .error .passwordMismatch
  else if now < self.unlock_date then
    .error .stillLocked
  else
    match derive_key password self.salt with
    | .error e => .error e
    | .ok key =>
        match aes_gcm_decrypt key self.nonce self.encrypted_content with
        | none => .error .authenticationFailed
        | some content => .ok content

/-- Model of a file name in the storage directory, as decomposed by Rust's
`Path::file_stem` / `Path::extension`. -/
structure FileName where
  stem : String
  ext : Option String
deriving DecidableEq, Repr

/-- Model of the content of one file in the storage directory: either the
`serde_json` document of an envelope, or content that fails to parse as one
(the `Err` branch of `serde_json::from_str`). -/
inductive FileData where
  | json (m : TimeLockedMessage)
  | corrupt (raw : String)
deriving DecidableEq, Repr

/-- Model of `serde_json::to_string_pretty` on an envelope. -/
def serde_to_string (m : TimeLockedMessage) : FileData :=
  .json m

/-- Model of `serde_json::from_str::<TimeLockedMessage>`; the error message
is the source's "Failed to parse JSON" wrapping. -/
def serde_from_str : FileData → Except String TimeLockedMessage
  | .json m => .ok m
  | .corrupt _ => .error "Failed to parse JSON"

/-- Model of the storage directory (`~/.timecapsule`): the list of its
directory entries, each a file name with its content. -/
abbrev Storage := List (FileName × FileData)

/-- Model of `fs::read_to_string` on one entry of the storage directory:
the content of the first entry carrying the name, if any. -/
def fs_read : Storage → FileName → Option FileData
  | [], _ => none
  | (n, d) :: rest, name => if n = name then some d else fs_read rest name

/-- Model of `fs::write`: replaces the content of an existing file of that
name without any existence check, and creates the file otherwise. -/
def fs_write : Storage → FileName → FileData → Storage
  | [], name, data => [(name, data)]
  | (n, d) :: rest, name, data =>
      if n = name then (name, data) :: rest
      else (n, d) :: fs_write rest name data

/-- The record location `format!("{}.json", id)` used by both
`save_message` and `load_message`. -/
def recordName (id : String) : FileName :=
  { stem := id, ext := some "json" }

/-- Embedding of `save_to_file` (src/storage.rs lines 31-35): serialize the
envelope to JSON and write it at the given path. -/
def save_to_file (m : TimeLockedMessage) (fs : Storage) (name : FileName) : Storage :=
  fs_write fs name (serde_to_string m)

/-- Embedding of `save_message` (src/storage.rs lines 22-29): the freshly
minted UUID is the explicit parameter `id`; the envelope is written at
`{id}.json` in the storage directory and the identifier returned. -/
def save_message (m : TimeLockedMessage) (fs : Storage) (id : String) : Storage × String :=
  (save_to_file m fs (recordName id), id)

/-- Embedding of `load_from_file` (src/storage.rs lines 43-51): read the
file (the source's "Failed to read file" error when absent) and parse it. -/
def load_from_file (fs : Storage) (name : FileName) : Except String TimeLockedMessage :=
  match fs_read fs name with
  | none => .error "Failed to read file"
  | some data => serde_from_str data

/-- Embedding of `load_message` (src/storage.rs lines 37-41): resolve the
identifier to `{id}.json` and load from that file. -/
def load_message (fs : Storage) (id : String) : Except String TimeLockedMessage :=
  load_from_file fs (recordName id)

/-- Embedding of `list_messages` (src/storage.rs lines 53-81): iterate over
the directory entries; for each entry with extension `json`, take the file
stem as the identifier and try `load_from_file`; a successful load is added
to the result, a failure is skipped (warned about on stderr, a side effect
outside the model) without failing the call.  The returned `HashMap` is
modelled as the association list of its insertions. -/
def list_messages (fs : Storage) : List (String × TimeLockedMessage) :=
  fs.filterMap (fun e =>
    if e.1.ext = some "json" then
      match serde_from_str e.2 with
      | .ok m => some (e.1.stem, m)
      | .error _ => none
    else none)

/-! Concrete sample values used by the witness theorems. -/

/-- The envelope `TimeLockedMessage::new "hello" "pw" 5 none` produces with
salt "abcd", nonce bytes `[0, 1, 2]` and creation instant 0. -/
def sampleEnvelope : TimeLockedMessage :=
  { encrypted_content :=
      { body := "hello"
        tag := ({ password := "pw", salt := "abcd" }, [0, 1, 2], "hello") }
    nonce := [0, 1, 2]
    salt := "abcd"
    password_hash := { salt := "abcd", digest := ("pw", "abcd") }
    unlock_date := 5
    label := none
    created_at := 0 }

theorem sampleEnvelope_new :
    TimeLockedMessage.new "hello" "pw" 5 none "abcd" [0, 1, 2] 0 = .ok sampleEnvelope := by
  rfl

/-- C1: for every plaintext, password and unlock timestamp, an envelope
produced by `TimeLockedMessage::new`, unlocked with the same password at a
current time greater than or equal to the unlock timestamp, yields `Ok` of
exactly the original plaintext. -/
theorem unlock_roundtrip (content password : String) (t : Int)
    (label : Option String) (salt : String) (nonce_bytes : List Nat)
    (created now : Int) (e : TimeLockedMessage)
    (hnew : TimeLockedMessage.new content password t label salt nonce_bytes created = .ok e)
    (htime : t ≤ now) :
    e.unlock password now = .ok content := by
  by_cases hv : validSalt salt = true
  · simp only [TimeLockedMessage.new, derive_key, hv, if_true, Except.ok.injEq] at hnew
    subst hnew
    have hnl : ¬ (now < t) := by omega
    simp [TimeLockedMessage.unlock, argon2_verify_password, argon2_hash_password,
      argon2_digest, derive_key, hv, aes_gcm_decrypt, aes_gcm_encrypt, hnl]
  · simp only [TimeLockedMessage.new, derive_key, hv, if_false] at hnew
    simp at hnew

/-- Witness for C1 at a concrete input. -/
theorem unlock_roundtrip_witness :
    sampleEnvelope.unlock "pw" 7 = .ok "hello" :=
  unlock_roundtrip "hello" "pw" 5 none "abcd" [0, 1, 2] 0 7 sampleEnvelope
    sampleEnvelope_new (by decide)

/-- C2: unlocking an envelope with any password other than the one it was
created with returns the password-mismatch error, at every current time —
in particular also while the envelope is still time-locked, since the
password check precedes the time-gate check. -/
theorem unlock_wrong_password (content w : String) (t : Int)
    (label : Option String) (salt : String) (nonce_bytes : List Nat)
    (created : Int) (e : TimeLockedMessage)
    (hnew : TimeLockedMessage.new content w t label salt nonce_bytes created = .ok e)
    (w2 : String) (hw : w2 ≠ w) (now : Int) :
    e.unlock w2 now = .error .passwordMismatch := by
  by_cases hv : validSalt salt = true
  · simp only [TimeLockedMessage.new, derive_key, hv, if_true, Except.ok.injEq] at hnew
    subst hnew
    simp [TimeLockedMessage.unlock, argon2_verify_password, argon2_hash_password,
      argon2_digest, Ne.symm hw]
  · simp only [TimeLockedMessage.new, derive_key, hv, if_false] at hnew
    simp at hnew

/-- Witness for C2 at a concrete input, with a current time (0) at which
the envelope (unlock date 5) is still time-locked: the result is the
password mismatch, not the still-locked error. -/
theorem unlock_wrong_password_witness :
    sampleEnvelope.unlock "wrong" 0 = .error .passwordMismatch :=
  unlock_wrong_password "hello" "pw" 5 none "abcd" [0, 1, 2] 0 sampleEnvelope
    sampleEnvelope_new "wrong" (by decide) 0

/-- C3 (amended): unlocking with the correct password strictly before the
unlock timestamp returns the still-locked error.  The error is the constant
"Message is still time-locked"; it does not carry the remaining duration. -/
theorem unlock_before_time_still_locked (content w : String) (t : Int)
    (label : Option String) (salt : String) (nonce_bytes : List Nat)
    (created : Int) (e : TimeLockedMessage)
    (hnew : TimeLockedMessage.new content w t label salt nonce_bytes created = .ok e)
    (now : Int) (hlt : now < t) :
    e.unlock w now = .error .stillLocked := by
  by_cases hv : validSalt salt = true
  · simp only [TimeLockedMessage.new, derive_key, hv, if_true, Except.ok.injEq] at hnew
    subst hnew
    simp [TimeLockedMessage.unlock, argon2_verify_password, argon2_hash_password,
      argon2_digest, hlt]
  · simp only [TimeLockedMessage.new, derive_key, hv, if_false] at hnew
    simp at hnew

/-- Witness for the amended C3 at a concrete input. -/
theorem unlock_before_time_still_locked_witness :
    sampleEnvelope.unlock "pw" 0 = .error .stillLocked :=
  unlock_before_time_still_locked "hello" "pw" 5 none "abcd" [0, 1, 2] 0
    sampleEnvelope sampleEnvelope_new 0 (by decide)

/-- The sample envelope with unlock date 10: at current time 0 the
remaining duration is 10. -/
def lockedEnvelopeA : TimeLockedMessage :=
  { sampleEnvelope with unlock_date := 10 }

/-- The sample envelope with unlock date 1000: at current time 0 the
remaining duration is 1000. -/
def lockedEnvelopeB : TimeLockedMessage :=
  { sampleEnvelope with unlock_date := 1000 }

/-- Counterexample to C3 as stated: two still-locked envelopes whose
remaining durations differ (10 vs 1000 at current time 0) make `unlock`
return the very same error value, so the still-locked error cannot carry
the remaining duration as context — in the source it is the constant
string "Message is still time-locked". -/
theorem stillLocked_error_has_no_duration :
    lockedEnvelopeA.unlock "pw" 0 = .error .stillLocked ∧
    lockedEnvelopeB.unlock "pw" 0 = .error .stillLocked ∧
    lockedEnvelopeA.unlock "pw" 0 = lockedEnvelopeB.unlock "pw" 0 ∧
    lockedEnvelopeA.unlock_date - 0 ≠ lockedEnvelopeB.unlock_date - 0 :=
  ⟨rfl, rfl, rfl, by decide⟩

/-- C4: altering the ciphertext body of a stored envelope while leaving its
password hash (and AEAD tag) intact makes `unlock` with the correct
password, after the unlock time, pass the password-verifier check but fail
with the authentication (decryption) error instead of returning plaintext. -/
theorem unlock_tampered_ciphertext (content w : String) (t : Int)
    (label : Option String) (salt : String) (nonce_bytes : List Nat)
    (created : Int) (e : TimeLockedMessage)
    (hnew : TimeLockedMessage.new content w t label salt nonce_bytes created = .ok e)
    (body : String) (hbody : body ≠ e.encrypted_content.body)
    (now : Int) (htime : t ≤ now) :
    argon2_verify_password w
        ({ e with encrypted_content :=
            { body := body, tag := e.encrypted_content.tag } } :
          TimeLockedMessage).password_hash = true ∧
    ({ e with encrypted_content :=
        { body := body, tag := e.encrypted_content.tag } } :
      TimeLockedMessage).unlock w now = .error .authenticationFailed := by
  by_cases hv : validSalt salt = true
  · simp only [TimeLockedMessage.new, derive_key, hv, if_true, Except.ok.injEq] at hnew
    subst hnew
    simp only [aes_gcm_encrypt] at hbody
    have hnl : ¬ (now < t) := by omega
    constructor
    · simp [argon2_verify_password, argon2_hash_password, argon2_digest]
    · simp [TimeLockedMessage.unlock, argon2_verify_password, argon2_hash_password,
        argon2_digest, derive_key, hv, aes_gcm_decrypt, aes_gcm_encrypt, hnl,
        Ne.symm hbody]
  · simp only [TimeLockedMessage.new, derive_key, hv, if_false] at hnew
    simp at hnew

/-- Witness for C4 at a concrete input: the sample envelope with its
ciphertext body changed from "hello" to "jello". -/
theorem unlock_tampered_ciphertext_witness :
    argon2_verify_password "pw"
        ({ sampleEnvelope with encrypted_content :=
            { body := "jello", tag := sampleEnvelope.encrypted_content.tag } } :
          TimeLockedMessage).password_hash = true ∧
    ({ sampleEnvelope with encrypted_content :=
        { body := "jello", tag := sampleEnvelope.encrypted_content.tag } } :
      TimeLockedMessage).unlock "pw" 7 = .error .authenticationFailed :=
  unlock_tampered_ciphertext "hello" "pw" 5 none "abcd" [0, 1, 2] 0
    sampleEnvelope sampleEnvelope_new "jello" (by decide) 7 (by decide)

/-! Facts about the filesystem model used by the storage theorems. -/

theorem fs_read_write_self (fs : Storage) (name : FileName) (data : FileData) :
    fs_read (fs_write fs name data) name = some data := by
  induction fs with
  | nil => simp [fs_write, fs_read]
  | cons head rest ih =>
    obtain ⟨n, d⟩ := head
    by_cases hn : n = name
    · simp [fs_write, fs_read, hn]
    · simp [fs_write, fs_read, hn, ih]

theorem fs_read_write_other (fs : Storage) (name other : FileName)
    (data : FileData) (h : other ≠ name) :
    fs_read (fs_write fs name data) other = fs_read fs other := by
  have hne : ¬ (name = other) := fun hh => h hh.symm
  induction fs with
  | nil => simp [fs_write, fs_read, hne]
  | cons head rest ih =>
    obtain ⟨n, d⟩ := head
    by_cases hn : n = name
    · subst hn
      simp [fs_write, fs_read, hne]
    · simp [fs_write, fs_read, hn, ih]

/-- A second sample envelope, the old record of the overwrite scenario. -/
def oldEnvelope : TimeLockedMessage :=
  { sampleEnvelope with label := some "old" }

/-- Counterexample to C5 as stated: a storage directory already holding a
record at `id1.json` is silently overwritten by `save_message` when the
minted identifier collides — the call succeeds as if nothing happened and
the old record's content is replaced by the new envelope's. -/
theorem save_message_overwrites_existing :
    (save_message sampleEnvelope
        [(recordName "id1", serde_to_string oldEnvelope)] "id1").2 = "id1" ∧
    fs_read (save_message sampleEnvelope
        [(recordName "id1", serde_to_string oldEnvelope)] "id1").1 (recordName "id1")
      = some (serde_to_string sampleEnvelope) ∧
    serde_to_string sampleEnvelope ≠ serde_to_string oldEnvelope :=
  ⟨rfl, rfl, by decide⟩

/-- C5 (amended): `save_message` performs no existence check — it writes
the record at the minted identifier's location unconditionally, replacing
any record already there; records at every other identifier are untouched,
so non-overwrite rests solely on the uniqueness of freshly minted UUIDs. -/
theorem save_message_blind_write (fs : Storage) (m : TimeLockedMessage)
    (id otherId : String) (h : otherId ≠ id) :
    fs_read (save_message m fs id).1 (recordName id) = some (serde_to_string m) ∧
    fs_read (save_message m fs id).1 (recordName otherId)
      = fs_read fs (recordName otherId) := by
  constructor
  · exact fs_read_write_self fs (recordName id) (serde_to_string m)
  · exact fs_read_write_other fs (recordName id) (recordName otherId) _
      (by simp [recordName, h])

/-- Witness for the amended C5 at a concrete input. -/
theorem save_message_blind_write_witness :
    fs_read (save_message sampleEnvelope
        [(recordName "other", serde_to_string oldEnvelope)] "id1").1 (recordName "id1")
      = some (serde_to_string sampleEnvelope) ∧
    fs_read (save_message sampleEnvelope
        [(recordName "other", serde_to_string oldEnvelope)] "id1").1 (recordName "other")
      = fs_read [(recordName "other", serde_to_string oldEnvelope)] (recordName "other") :=
  save_message_blind_write [(recordName "other", serde_to_string oldEnvelope)]
    sampleEnvelope "id1" "other" (by decide)

/-- C6: `list_messages` returns exactly the successfully loadable records —
an identifier is mapped to an envelope in the result precisely when the
storage root holds a record named by that identifier with the `json`
extension whose content parses to that envelope; a record that fails to
parse is skipped without failing the call (the call is total). -/
theorem list_messages_exactly_loadable (fs : Storage) (id : String)
    (m : TimeLockedMessage) :
    (id, m) ∈ list_messages fs ↔
      ∃ data, (recordName id, data) ∈ fs ∧ serde_from_str data = .ok m := by
  simp only [list_messages, List.mem_filterMap]
  constructor
  · rintro ⟨⟨name, data⟩, hmem, hf⟩
    by_cases hext : name.ext = some "json"
    · rw [if_pos hext] at hf
      cases data with
      | json m2 =>
        simp only [serde_from_str, Option.some.injEq, Prod.mk.injEq] at hf
        obtain ⟨hstem, hm⟩ := hf
        obtain ⟨stem, ext⟩ := name
        simp only at hstem hext
        subst hstem; subst hext; subst hm
        exact ⟨.json m2, hmem, rfl⟩
      | corrupt s => simp [serde_from_str] at hf
    · rw [if_neg hext] at hf
      cases hf
  · rintro ⟨data, hmem, hok⟩
    refine ⟨(recordName id, data), hmem, ?_⟩
    cases data with
    | json m2 =>
      simp only [serde_from_str, Except.ok.injEq] at hok
      subst hok
      simp [recordName, serde_from_str]
    | corrupt s => simp [serde_from_str] at hok

/-- C7: `derive_key` is deterministic — two calls with the same password
and the same well-formed salt return the very same derived key. -/
theorem derive_key_deterministic (p1 s1 p2 s2 : String)
    (hp : p1 = p2) (hs : s1 = s2) (hv : validSalt s1 = true) :
    derive_key p1 s1 = derive_key p2 s2 ∧
    derive_key p1 s1 = .ok { password := p1, salt := s1 } := by
  subst hp; subst hs
  exact ⟨rfl, by simp [derive_key, hv]⟩

/-- Witness for C7 at a concrete input. -/
theorem derive_key_deterministic_witness :
    derive_key "pw" "abcd" = derive_key "pw" "abcd" ∧
    derive_key "pw" "abcd" = .ok { password := "pw", salt := "abcd" } :=
  derive_key_deterministic "pw" "abcd" "pw" "abcd" rfl rfl (by decide)

/-- C8: storing an envelope and loading it back by the returned identifier
yields an envelope equal to the original in every field; JSON serialization
followed by deserialization is the identity on envelopes. -/
theorem save_then_load_roundtrip (fs : Storage) (m : TimeLockedMessage)
    (id : String) :
    load_message (save_message m fs id).1 (save_message m fs id).2 = .ok m ∧
    serde_from_str (serde_to_string m) = .ok m := by
  constructor
  · simp [load_message, save_message, save_to_file, load_from_file,
      fs_read_write_self, serde_to_string, serde_from_str]
  · rfl

/-- C9: in an envelope produced by `TimeLockedMessage::new`, the salt
embedded in the password-hash record and the `salt` field used for key
derivation are the same value, originating from the single salt generated
during that call. -/
theorem new_salt_consistent (content password : String) (t : Int)
    (label : Option String) (salt : String) (nonce_bytes : List Nat)
    (created : Int) (e : TimeLockedMessage)
    (hnew : TimeLockedMessage.new content password t label salt nonce_bytes created = .ok e) :
    e.password_hash.salt = e.salt := by
  by_cases hv : validSalt salt = true
  · simp only [TimeLockedMessage.new, derive_key, hv, if_true, Except.ok.injEq] at hnew
    subst hnew
    rfl
  · simp only [TimeLockedMessage.new, derive_key, hv, if_false] at hnew
    simp at hnew

/-- Witness for C9 at a concrete input. -/
theorem new_salt_consistent_witness :
    sampleEnvelope.password_hash.salt = sampleEnvelope.salt :=
  new_salt_consistent "hello" "pw" 5 none "abcd" [0, 1, 2] 0 sampleEnvelope
    sampleEnvelope_new

/-- C10: the result of `unlock` does not depend on the `unlock_date`,
`label` or `created_at` fields once the current time is past both unlock
dates — two envelopes agreeing on ciphertext, nonce, salt and password
hash unlock identically; consequently rewriting a stored record's unlock
date to a past instant makes `unlock` with the correct password return the
original plaintext (the time gate and metadata are not authenticated). -/
theorem unlock_independent_of_metadata :
    (∀ (e1 e2 : TimeLockedMessage) (password : String) (now : Int),
        e1.encrypted_content = e2.encrypted_content → e1.nonce = e2.nonce →
        e1.salt = e2.salt → e1.password_hash = e2.password_hash →
        e1.unlock_date ≤ now → e2.unlock_date ≤ now →
        e1.unlock password now = e2.unlock password now) ∧
    (∀ (content password : String) (t : Int) (label : Option String)
        (salt : String) (nonce_bytes : List Nat) (created : Int)
        (e : TimeLockedMessage) (t2 now : Int),
        TimeLockedMessage.new content password t label salt nonce_bytes created = .ok e →
        t2 ≤ now →
        ({ e with unlock_date := t2 } : TimeLockedMessage).unlock password now
          = .ok content) := by
  constructor
  · intro e1 e2 password now hc hn hs hp h1 h2
    obtain ⟨c1, n1, s1, p1, u1, l1, a1⟩ := e1
    obtain ⟨c2, n2, s2, p2, u2, l2, a2⟩ := e2
    simp only at hc hn hs hp h1 h2
    subst hc; subst hn; subst hs; subst hp
    have hnu1 : ¬ (now < u1) := by omega
    have hnu2 : ¬ (now < u2) := by omega
    simp [TimeLockedMessage.unlock, hnu1, hnu2]
  · intro content password t label salt nonce_bytes created e t2 now hnew ht
    by_cases hv : validSalt salt = true
    · simp only [TimeLockedMessage.new, derive_key, hv, if_true, Except.ok.injEq] at hnew
      subst hnew
      have hnl : ¬ (now < t2) := by omega
      simp [TimeLockedMessage.unlock, argon2_verify_password, argon2_hash_password,
        argon2_digest, derive_key, hv, aes_gcm_decrypt, aes_gcm_encrypt, hnl]
    · simp only [TimeLockedMessage.new, derive_key, hv, if_false] at hnew
      simp at hnew

/-- Witness for C10 at concrete inputs: changing label and creation time
does not change the unlock result, and rewriting the unlock date of the
sample envelope (originally 5) to the past instant 1 lets the correct
password recover the plaintext at time 7. -/
theorem unlock_independent_of_metadata_witness :
    sampleEnvelope.unlock "pw" 7 =
      ({ sampleEnvelope with label := some "x", created_at := 42 } :
        TimeLockedMessage).unlock "pw" 7 ∧
    ({ sampleEnvelope with unlock_date := 1 } : TimeLockedMessage).unlock "pw" 7
      = .ok "hello" :=
  ⟨unlock_independent_of_metadata.1 sampleEnvelope
      { sampleEnvelope with label := some "x", created_at := 42 } "pw" 7
      rfl rfl rfl rfl (by decide) (by decide),
    unlock_independent_of_metadata.2 "hello" "pw" 5 none "abcd" [0, 1, 2] 0
      sampleEnvelope 1 7 sampleEnvelope_new (by decide)⟩

end Timecapsule
